import Mathlib

/-!
Verification of the chat orchestration core of `src/chat/chat_service.py`
(class `ChatService`): the data model (`ChatMessage`), the session lifecycle
(`initialize_browser`, `close_browser`), the transcript operations
(`add_message`, `get_chat_history`, `clear_chat_history`) and the main
operation `process_user_message`.

Embedding conventions:
- Python object attributes of one `ChatService` instance become the fields of
  `ChatState`; methods become state-passing functions.
- A Python call that may raise is modelled by `PyResult`, which carries the
  state at the moment the exception leaves the method (mutations made before
  the `raise` persist, exactly as in Python).
- The external collaborators (`CustomBrowser(...)`, `browser.new_context`,
  `agent.run`, the two `close()` calls) are black boxes: their behaviour on a
  given call is an oracle value (`InitOutcome`, `RunOutcome`, the two
  `Option String` close-failure oracles) quantified over in the theorems.
- A ghost `trace : List Event` records, in order, every successful resource
  creation and every close or agent-run invocation; it models the counting
  test double of the specification and is touched exactly where the
  corresponding Python call sites are.
- `datetime.now()` is modelled by a monotone ghost clock bumped at each
  `add_message`, the only place the source reads the time.
- Python f-string rendering of values is modelled by `pyStr` (an optional
  string: `None` prints as "None") and `pyListReprStr` (a list of strings
  prints in its `repr` sequence form).
-/

/-- Values stored in a message's metadata dict: a single string, or a list of
records.  The orchestrator never inspects individual action/thought/error
records, only passes them through, so each record is modelled as an opaque
`String` token. -/
inductive PyVal where
  | vStr (s : String)
  | vList (xs : List String)
deriving DecidableEq, Repr

/-- A Python dict used as message metadata: an association list in insertion
order, as the source only builds small literal dicts. -/
abbrev Metadata := List (String × PyVal)

/-- `ChatMessage` dataclass: role ("user" or "assistant"), content, timestamp,
optional metadata. -/
structure ChatMessage where
  role : String
  content : String
  timestamp : Nat
  metadata : Option Metadata
deriving DecidableEq, Repr

/-- Ghost trace events: successful creations of the browser and of the
context, invocations of the two `close()` calls, and each construction of a
`CustomAgent` together with the `browser_context` value it was given. -/
inductive Event where
  | browserCreate
  | contextCreate
  | contextClose
  | browserClose
  | agentRun (ctx : Option Unit)
deriving DecidableEq, Repr

/-- The mutable attributes of one `ChatService` instance.  `browser` and
`browser_context` are the two handles (`None` in Python becomes `none`);
`messages` is the transcript; `clock` and `trace` are ghost instrumentation
(see the header comment). -/
structure ChatState where
  messages : List ChatMessage
  browser : Option Unit
  browser_context : Option Unit
  clock : Nat
  trace : List Event
deriving DecidableEq, Repr

/-- State of a fresh `ChatService` (its `__init__`): empty transcript, both
handles `None`. -/
def initState : ChatState :=
  { messages := [], browser := none, browser_context := none, clock := 0, trace := [] }

/-- Result of running a Python method body that may raise: either a value or
an exception message, in both cases together with the state the instance is
left in. -/
inductive PyResult (α : Type) where
  | ok (val : α) (state : ChatState)
  | exn (err : String) (state : ChatState)
deriving DecidableEq, Repr

/-- The state a `PyResult` leaves the instance in. -/
def PyResult.state : PyResult α → ChatState
  | .ok _ s => s
  | .exn _ s => s

/-- Whether the method returned normally. -/
def PyResult.isOk : PyResult α → Bool
  | .ok _ _ => true
  | .exn _ _ => false

/-- Oracle for the two external provisioning calls inside
`initialize_browser`: both succeed, `CustomBrowser(...)` raises, or the
browser is built and `browser.new_context(...)` raises. -/
inductive InitOutcome where
  | ok
  | browserFails (e : String)
  | contextFails (e : String)
deriving DecidableEq, Repr

/-- `ChatService.initialize_browser`: guarded by `if not self.browser:`; on
the guarded path it assigns `self.browser` from `CustomBrowser(...)` and then
`self.browser_context` from `await self.browser.new_context(...)`.  Each
assignment happens only when its call returns; an exception leaves every
assignment already made in place. -/
def initialize_browser (env : InitOutcome) (s : ChatState) : PyResult Unit :=
  if s.browser.isNone then
    match env with
    | .browserFails e => .exn e s
    | .contextFails e =>
        .exn e { s with browser := some (), trace := s.trace ++ [Event.browserCreate] }
    | .ok =>
        .ok () { s with browser := some (), browser_context := some (),
                        trace := s.trace ++ [Event.browserCreate, Event.contextCreate] }
  else .ok () s

/-- Second half of `close_browser`: `if self.browser: await
self.browser.close(); self.browser = None; self.browser_context = None`.
`be` is the close-failure oracle for `browser.close()`. -/
def closeBrowserStep (be : Option String) (s : ChatState) : PyResult Unit :=
  match s.browser with
  | some _ =>
      let s1 := { s with trace := s.trace ++ [Event.browserClose] }
      match be with
      | some e => .exn e s1
      | none => .ok () { s1 with browser := none, browser_context := none }
  | none => .ok () s

/-- `ChatService.close_browser`: `if self.browser_context: await
self.browser_context.close()` followed by the browser step.  `ce` and `be`
are the close-failure oracles for the context and browser `close()` calls. -/
def close_browser (ce be : Option String) (s : ChatState) : PyResult Unit :=
  match s.browser_context with
  | some _ =>
      let s1 := { s with trace := s.trace ++ [Event.contextClose] }
      match ce with
      | some e => .exn e s1
      | none => closeBrowserStep be s1
  | none => closeBrowserStep be s

/-- `ChatService.add_message`: builds a `ChatMessage` stamped with the current
time and appends it to `self.messages`, returning it. -/
def add_message (s : ChatState) (role content : String) (metadata : Option Metadata) :
    ChatMessage × ChatState :=
  let m : ChatMessage :=
    { role := role, content := content, timestamp := s.clock, metadata := metadata }
  (m, { s with messages := s.messages ++ [m], clock := s.clock + 1 })

/-- The episode history returned by `agent.run`, exposing the four accessors
the orchestrator reads (`final_result`, `errors`, `model_actions`,
`model_thoughts`). -/
structure AgentHistoryList where
  final_result : Option String
  errors : List String
  model_actions : List String
  model_thoughts : List String
deriving DecidableEq, Repr

/-- Oracle for `await agent.run(max_steps=10)`: a history, or a raised
exception. -/
inductive RunOutcome where
  | ok (h : AgentHistoryList)
  | fails (e : String)
deriving DecidableEq, Repr

/-- The oracle for one `process_user_message` call: the behaviour of the
session initializer and of the episode run. -/
structure ProcEnv where
  init : InitOutcome
  run : RunOutcome
deriving DecidableEq, Repr

/-- Python `f"{x}"` on an optional string: `None` renders as "None". -/
def pyStr : Option String → String
  | some s => s
  | none => "None"

/-- Python `repr` of one plain string (single-quoted). -/
def pyReprStr (s : String) : String := "\x27" ++ s ++ "\x27"

/-- Python `f"{xs}"` for a list of strings: its `repr` sequence form. -/
def pyListReprStr (xs : List String) : String :=
  "[" ++ String.intercalate ", " (xs.map pyReprStr) ++ "]"

/-- `ChatService.process_user_message`: the whole body is inside
`try ... except Exception as e`.  Ensure the session, append the user
message, construct the agent (ghost event records the `browser_context`
handed to it), run the episode, and reduce either the history or the caught
exception into the appended assistant message. -/
def process_user_message (env : ProcEnv) (s : ChatState) (message : String) :
    ChatMessage × ChatState :=
  match initialize_browser env.init s with
  | .exn e s1 =>
      add_message s1 "assistant" ("Error processing request: " ++ e)
        (some [("error", PyVal.vStr e)])
  | .ok _ s1 =>
      let s2 := (add_message s1 "user" message none).2
      let s3 := { s2 with trace := s2.trace ++ [Event.agentRun s2.browser_context] }
      match env.run with
      | .fails e =>
          add_message s3 "assistant" ("Error processing request: " ++ e)
            (some [("error", PyVal.vStr e)])
      | .ok h =>
          let response_content := "Result: " ++ pyStr h.final_result ++ "\n"
          let response_content :=
            if h.errors.isEmpty then response_content
            else response_content ++ "\nErrors: " ++ pyListReprStr h.errors
          add_message s3 "assistant" response_content
            (some [("actions", PyVal.vList h.model_actions),
                   ("thoughts", PyVal.vList h.model_thoughts),
                   ("errors", PyVal.vList h.errors)])

/-- `ChatService.get_chat_history`: returns the transcript. -/
def get_chat_history (s : ChatState) : List ChatMessage := s.messages

/-- `ChatService.clear_chat_history`: `self.messages.clear()`. -/
def clear_chat_history (s : ChatState) : ChatState := { s with messages := [] }

/-! ### Helper lemmas -/

/-- `initialize_browser` never touches the transcript or the clock. -/
theorem initialize_browser_frame (env : InitOutcome) (s : ChatState) :
    (initialize_browser env s).state.messages = s.messages ∧
    (initialize_browser env s).state.clock = s.clock := by
  unfold initialize_browser
  cases env <;> by_cases hb : s.browser.isNone <;>
    simp [hb, PyResult.state]

/-- If the browser handle is already set, `initialize_browser` is the
identity (the `if not self.browser:` guard skips the whole body). -/
theorem initialize_browser_live (env : InitOutcome) (s : ChatState)
    (h : s.browser = some ()) : initialize_browser env s = PyResult.ok () s := by
  unfold initialize_browser
  simp [h]

/-! ### C1 -/

/-- C1: for every input text and every behaviour of the session initializer
and the episode runner (including either raising), `process_user_message`
returns normally (it is a total function into `ChatMessage × ChatState`)
and the returned message has role "assistant" and is the single reply
appended at the end of the transcript. -/
theorem C1_always_assistant_reply (env : ProcEnv) (s : ChatState) (message : String) :
    (process_user_message env s message).1.role = "assistant" ∧
    ∃ prev : List ChatMessage,
      (process_user_message env s message).2.messages
        = prev ++ [(process_user_message env s message).1] := by
  unfold process_user_message
  cases hinit : initialize_browser env.init s with
  | exn e s1 => exact ⟨rfl, s1.messages, rfl⟩
  | ok v s1 =>
    cases env.run with
    | fails e => exact ⟨rfl, _, rfl⟩
    | ok h => exact ⟨rfl, _, rfl⟩

/-! ### C7 -/

/-- The exception (if any) raised inside the `try` block of
`process_user_message` for a given oracle and starting state: a session-init
failure, or an episode failure once the session step returned. -/
def procError (env : ProcEnv) (s : ChatState) : Option String :=
  match initialize_browser env.init s with
  | .exn e _ => some e
  | .ok _ _ =>
      match env.run with
      | .fails e => some e
      | .ok _ => none

/-- C7: if any step of `process_user_message` raises an exception described
by `e` (session-init failure or episode failure), the returned assistant
message has content exactly "Error processing request: " followed by `e`,
and its metadata is exactly the one-entry dict mapping "error" to `e`. -/
theorem C7_error_message_shape (env : ProcEnv) (s : ChatState) (msg e : String)
    (h : procError env s = some e) :
    (process_user_message env s msg).1.role = "assistant" ∧
    (process_user_message env s msg).1.content = "Error processing request: " ++ e ∧
    (process_user_message env s msg).1.metadata = some [("error", PyVal.vStr e)] := by
  unfold procError at h
  unfold process_user_message
  cases hinit : initialize_browser env.init s with
  | exn e1 s1 =>
    rw [hinit] at h
    simp only [Option.some.injEq] at h
    subst h
    exact ⟨rfl, rfl, rfl⟩
  | ok v s1 =>
    rw [hinit] at h
    cases hrun : env.run with
    | fails e1 =>
      rw [hrun] at h
      simp only [Option.some.injEq] at h
      subst h
      exact ⟨rfl, rfl, rfl⟩
    | ok hist =>
      rw [hrun] at h
      simp at h

/-- C7 witness: a concrete run where the episode raises "net down". -/
theorem C7_error_message_shape_witness :
    (process_user_message ⟨InitOutcome.ok, RunOutcome.fails "net down"⟩ initState "go").1.role
      = "assistant" ∧
    (process_user_message ⟨InitOutcome.ok, RunOutcome.fails "net down"⟩ initState "go").1.content
      = "Error processing request: net down" ∧
    (process_user_message ⟨InitOutcome.ok, RunOutcome.fails "net down"⟩ initState "go").1.metadata
      = some [("error", PyVal.vStr "net down")] :=
  C7_error_message_shape ⟨InitOutcome.ok, RunOutcome.fails "net down"⟩ initState "go"
    "net down" rfl

/-! ### C9 -/

/-- C9: when session initialization raises during `process_user_message`, the
transcript grows by exactly one message, the assistant error reply, and no
user message is recorded for the turn; when the failure happens after
initialization (episode raise), the transcript grows by exactly two
messages, the user message followed by the assistant error reply. -/
theorem C9_transcript_on_failure (env : ProcEnv) (s s1 : ChatState) (msg e : String) :
    (initialize_browser env.init s = PyResult.exn e s1 →
      (process_user_message env s msg).2.messages
        = s.messages
          ++ [{ role := "assistant", content := "Error processing request: " ++ e,
                timestamp := s.clock, metadata := some [("error", PyVal.vStr e)] }]) ∧
    (initialize_browser env.init s = PyResult.ok () s1 → env.run = RunOutcome.fails e →
      (process_user_message env s msg).2.messages
        = s.messages
          ++ [{ role := "user", content := msg, timestamp := s.clock, metadata := none },
              { role := "assistant", content := "Error processing request: " ++ e,
                timestamp := s.clock + 1, metadata := some [("error", PyVal.vStr e)] }]) := by
  obtain ⟨hm, hc⟩ := initialize_browser_frame env.init s
  constructor
  · intro h
    rw [h] at hm hc
    simp only [PyResult.state] at hm hc
    unfold process_user_message
    rw [h]
    simp [add_message, hm, hc]
  · intro h hrun
    rw [h] at hm hc
    simp only [PyResult.state] at hm hc
    unfold process_user_message
    rw [h, hrun]
    simp [add_message, hm, hc]

/-- C9 witness: a concrete init failure grows the transcript by one assistant
error message, and a concrete episode failure grows it by the user message
followed by the assistant error message. -/
theorem C9_transcript_on_failure_witness :
    (process_user_message ⟨InitOutcome.browserFails "no chrome", RunOutcome.fails "x"⟩
        initState "hi").2.messages
      = [{ role := "assistant", content := "Error processing request: no chrome",
           timestamp := 0, metadata := some [("error", PyVal.vStr "no chrome")] }] ∧
    (process_user_message ⟨InitOutcome.ok, RunOutcome.fails "ctx closed"⟩
        initState "hi").2.messages
      = [{ role := "user", content := "hi", timestamp := 0, metadata := none },
         { role := "assistant", content := "Error processing request: ctx closed",
           timestamp := 1, metadata := some [("error", PyVal.vStr "ctx closed")] }] := by
  constructor
  · exact (C9_transcript_on_failure ⟨InitOutcome.browserFails "no chrome", RunOutcome.fails "x"⟩
      initState initState "hi" "no chrome").1 rfl
  · exact (C9_transcript_on_failure ⟨InitOutcome.ok, RunOutcome.fails "ctx closed"⟩
      initState
      { initState with browser := some (), browser_context := some (),
                       trace := [Event.browserCreate, Event.contextCreate] }
      "hi" "ctx closed").2 rfl rfl

/-! ### C3 -/

/-- C3: for every successfully completed episode, the assistant reply's
content is "Result: " followed by the rendered `final_result` and a newline,
with a "\nErrors: <errors>" segment appended if and only if the errors list
is non-empty (rendered in its sequence form), and its metadata is exactly
the dict {actions, thoughts, errors} read off the episode history. -/
theorem C3_success_message_shape (env : ProcEnv) (s : ChatState) (msg : String)
    (h : AgentHistoryList)
    (hinit : (initialize_browser env.init s).isOk = true)
    (hrun : env.run = RunOutcome.ok h) :
    (process_user_message env s msg).1.content
      = "Result: " ++ pyStr h.final_result ++ "\n"
        ++ (if h.errors = [] then "" else "\nErrors: " ++ pyListReprStr h.errors) ∧
    (process_user_message env s msg).1.metadata
      = some [("actions", PyVal.vList h.model_actions),
              ("thoughts", PyVal.vList h.model_thoughts),
              ("errors", PyVal.vList h.errors)] := by
  unfold process_user_message
  cases hi : initialize_browser env.init s with
  | exn e s1 => rw [hi] at hinit; simp [PyResult.isOk] at hinit
  | ok v s1 =>
    rw [hrun]
    refine ⟨?_, rfl⟩
    by_cases he : h.errors = []
    · simp [add_message, he]
    · have hsplit : ("\n\nErrors: " : String) ++ pyListReprStr h.errors
          = "\n" ++ ("\nErrors: " ++ pyListReprStr h.errors) := by
        rw [← String.append_assoc]; rfl
      simp [add_message, he, List.isEmpty_iff, String.append_assoc]
      rw [hsplit]

/-- C3 witness: the two concrete examples — `final_result="Paris"` with no
errors yields content exactly "Result: Paris\n" and metadata
{actions, thoughts, errors}; `final_result="partial"` with errors
["timeout"] yields "Result: partial\n\nErrors: ['timeout']". -/
theorem C3_success_message_shape_witness :
    (process_user_message
        ⟨InitOutcome.ok, RunOutcome.ok ⟨some "Paris", [], ["a1", "a2"], ["t1"]⟩⟩
        initState "q").1.content = "Result: Paris\n" ∧
    (process_user_message
        ⟨InitOutcome.ok, RunOutcome.ok ⟨some "Paris", [], ["a1", "a2"], ["t1"]⟩⟩
        initState "q").1.metadata
      = some [("actions", PyVal.vList ["a1", "a2"]),
              ("thoughts", PyVal.vList ["t1"]),
              ("errors", PyVal.vList [])] ∧
    (process_user_message
        ⟨InitOutcome.ok, RunOutcome.ok ⟨some "partial", ["timeout"], [], []⟩⟩
        initState "q").1.content = "Result: partial\n\nErrors: [\x27timeout\x27]" := by
  refine ⟨?_, ?_, ?_⟩
  · have hp := (C3_success_message_shape
      ⟨InitOutcome.ok, RunOutcome.ok ⟨some "Paris", [], ["a1", "a2"], ["t1"]⟩⟩
      initState "q" ⟨some "Paris", [], ["a1", "a2"], ["t1"]⟩ rfl rfl).1
    simpa [pyStr] using hp
  · exact (C3_success_message_shape
      ⟨InitOutcome.ok, RunOutcome.ok ⟨some "Paris", [], ["a1", "a2"], ["t1"]⟩⟩
      initState "q" ⟨some "Paris", [], ["a1", "a2"], ["t1"]⟩ rfl rfl).2
  · have hp := (C3_success_message_shape
      ⟨InitOutcome.ok, RunOutcome.ok ⟨some "partial", ["timeout"], [], []⟩⟩
      initState "q" ⟨some "partial", ["timeout"], [], []⟩ rfl rfl).1
    simpa [pyStr, pyListReprStr, pyReprStr] using hp

/-! ### C2 -/

/-- C2 counterexample: starting from a fresh service, if `CustomBrowser(...)`
succeeds but `new_context` raises ("boom"), `initialize_browser` surfaces the
error with the browser handle set and the context handle still `None` — the
session is not left fully absent and the two handles are set one without the
other, contradicting the claimed rollback. -/
theorem C2_no_rollback_counterexample :
    (initialize_browser (InitOutcome.contextFails "boom") initState).isOk = false ∧
    (initialize_browser (InitOutcome.contextFails "boom") initState).state.browser = some () ∧
    (initialize_browser (InitOutcome.contextFails "boom") initState).state.browser_context
      = none := ⟨rfl, rfl, rfl⟩

/-- C2 amended: from a no-session state, if browser creation itself fails the
error surfaces with the state unchanged (the session is still fully absent);
but if context creation fails after the browser was assigned, no rollback
occurs — the error surfaces with the browser handle set and the context
handle still `None`, so the two handles are left one set without the
other. -/
theorem C2_partial_state_on_failure (e : String) (s : ChatState) (h : s.browser = none) :
    initialize_browser (InitOutcome.browserFails e) s = PyResult.exn e s ∧
    initialize_browser (InitOutcome.contextFails e) s
      = PyResult.exn e
          { s with browser := some (), trace := s.trace ++ [Event.browserCreate] } := by
  unfold initialize_browser
  simp [h]

/-- C2 amended witness: the two failure modes at a concrete fresh state. -/
theorem C2_partial_state_on_failure_witness :
    initialize_browser (InitOutcome.browserFails "boom") initState
      = PyResult.exn "boom" initState ∧
    initialize_browser (InitOutcome.contextFails "boom") initState
      = PyResult.exn "boom"
          { initState with browser := some (), trace := [Event.browserCreate] } :=
  C2_partial_state_on_failure "boom" initState rfl

/-! ### C10 -/

/-- C10: the no-op guard of `initialize_browser` tests only the browser
handle.  In any state where the browser handle is set but the context handle
is `None` (the state left by a context-creation failure), every later
`initialize_browser` call returns immediately without creating anything, and
a subsequent `process_user_message` constructs its agent with a `None`
browser context (the only event it adds is that agent run). -/
theorem C10_guard_tests_only_browser (envI : InitOutcome) (env : ProcEnv)
    (s : ChatState) (msg : String)
    (hb : s.browser = some ()) (hc : s.browser_context = none) :
    initialize_browser envI s = PyResult.ok () s ∧
    (process_user_message env s msg).2.trace = s.trace ++ [Event.agentRun none] := by
  have hinit : initialize_browser env.init s = PyResult.ok () s :=
    initialize_browser_live env.init s hb
  refine ⟨initialize_browser_live envI s hb, ?_⟩
  unfold process_user_message
  rw [hinit]
  cases env.run with
  | fails e => simp [add_message, hc]
  | ok h => simp [add_message, hc]

/-- C10 witness: the concrete broken state produced by a context-creation
failure from a fresh service; a retried initialize is an exact no-op and the
next processed message runs its episode against a `None` context. -/
theorem C10_guard_tests_only_browser_witness :
    initialize_browser InitOutcome.ok
        { initState with browser := some (), trace := [Event.browserCreate] }
      = PyResult.ok ()
          { initState with browser := some (), trace := [Event.browserCreate] } ∧
    (process_user_message ⟨InitOutcome.ok, RunOutcome.fails "no context"⟩
        { initState with browser := some (), trace := [Event.browserCreate] } "hi").2.trace
      = [Event.browserCreate, Event.agentRun none] := by
  have h := C10_guard_tests_only_browser InitOutcome.ok
    ⟨InitOutcome.ok, RunOutcome.fails "no context"⟩
    { initState with browser := some (), trace := [Event.browserCreate] } "hi" rfl rfl
  exact ⟨h.1, h.2⟩

/-! ### C4 -/

/-- C4 counterexample: from a live session, if the context `close()` raises,
`close_browser` propagates the error, the browser `close()` is never
attempted, and both handles are still set afterwards — the release is not
guarded and the session is not left absent. -/
theorem C4_unguarded_close_counterexample :
    (close_browser (some "close failed") none
        { initState with browser := some (), browser_context := some () }).isOk = false ∧
    (close_browser (some "close failed") none
        { initState with browser := some (), browser_context := some () }).state.browser
      = some () ∧
    (close_browser (some "close failed") none
        { initState with browser := some (), browser_context := some () }).state.browser_context
      = some () ∧
    Event.browserClose ∉
      (close_browser (some "close failed") none
          { initState with browser := some (), browser_context := some () }).state.trace := by
  refine ⟨rfl, rfl, rfl, ?_⟩
  decide

/-- C4 amended: `close_browser` releases the context and then the browser,
in that order, and is a safe no-op when no session is live; when both
releases succeed it clears both handles.  But the releases are unguarded: a
context-close failure propagates before the browser close is attempted, and
either close failure leaves both handles still set (the session is not
marked absent on failure). -/
theorem C4_close_behaviour (ce be : Option String) (e : String) (s : ChatState) :
    (s.browser = none → s.browser_context = none →
      close_browser ce be s = PyResult.ok () s) ∧
    (s.browser = some () → s.browser_context = some () →
      close_browser none none s
        = PyResult.ok ()
            { s with browser := none, browser_context := none,
                     trace := s.trace ++ [Event.contextClose, Event.browserClose] } ∧
      close_browser (some e) be s
        = PyResult.exn e { s with trace := s.trace ++ [Event.contextClose] } ∧
      close_browser none (some e) s
        = PyResult.exn e
            { s with trace := s.trace ++ [Event.contextClose, Event.browserClose] }) := by
  constructor
  · intro hb hc
    unfold close_browser closeBrowserStep
    rw [hb, hc]
  · intro hb hc
    unfold close_browser closeBrowserStep
    rw [hb, hc]
    refine ⟨?_, rfl, ?_⟩ <;> simp

/-- C4 amended witness: concrete no-op on a fresh service and the three
close scenarios from a concrete live session. -/
theorem C4_close_behaviour_witness :
    close_browser none none initState = PyResult.ok () initState ∧
    (close_browser none none
        { initState with browser := some (), browser_context := some () }
      = PyResult.ok ()
          { initState with trace := [Event.contextClose, Event.browserClose] } ∧
    close_browser (some "ctx boom") none
        { initState with browser := some (), browser_context := some () }
      = PyResult.exn "ctx boom"
          { initState with browser := some (), browser_context := some (),
                           trace := [Event.contextClose] } ∧
    close_browser none (some "ctx boom")
        { initState with browser := some (), browser_context := some () }
      = PyResult.exn "ctx boom"
          { initState with browser := some (), browser_context := some (),
                           trace := [Event.contextClose, Event.browserClose] }) :=
  ⟨(C4_close_behaviour none none "ctx boom" initState).1 rfl rfl,
   (C4_close_behaviour none none "ctx boom"
      { initState with browser := some (), browser_context := some () }).2 rfl rfl⟩

/-! ### C5 -/

/-- The number of times an event occurs in a trace (the counting test double
of the specification). -/
def countEvent (t : List Event) (e : Event) : Nat :=
  (t.filter (fun x => x == e)).length

/-- `n` consecutive `initialize_browser` calls whose external provisioning
succeeds. -/
def initTimes : Nat → ChatState → ChatState
  | 0, s => s
  | n + 1, s => initTimes n ((initialize_browser InitOutcome.ok s).state)

/-- Once the browser handle is set, further `initialize_browser` calls leave
the state untouched. -/
theorem initTimes_live (n : Nat) (s : ChatState) (h : s.browser = some ()) :
    initTimes n s = s := by
  induction n with
  | zero => rfl
  | succ n ih =>
    show initTimes n (initialize_browser InitOutcome.ok s).state = s
    rw [initialize_browser_live InitOutcome.ok s h]
    exact ih

/-- C5: `initialize_browser` is idempotent — for every positive `N`, calling
it `N` times consecutively from the no-session state creates exactly one
browser and exactly one context (the whole trace is those two creation
events; the second and later calls add nothing). -/
theorem C5_init_idempotent (n : Nat) (hn : 0 < n) :
    countEvent (initTimes n initState).trace Event.browserCreate = 1 ∧
    countEvent (initTimes n initState).trace Event.contextCreate = 1 ∧
    (initTimes n initState).trace = [Event.browserCreate, Event.contextCreate] := by
  obtain ⟨m, rfl⟩ : ∃ m, n = m + 1 :=
    ⟨n - 1, (Nat.succ_pred_eq_of_pos hn).symm⟩
  have key : initTimes (m + 1) initState
      = { initState with browser := some (), browser_context := some (),
                         trace := [Event.browserCreate, Event.contextCreate] } := by
    show initTimes m (initialize_browser InitOutcome.ok initState).state = _
    exact initTimes_live m _ rfl
  rw [key]
  exact ⟨rfl, rfl, rfl⟩

/-- C5 witness: three consecutive successful initialize calls from a fresh
service create exactly one browser and one context. -/
theorem C5_init_idempotent_witness :
    countEvent (initTimes 3 initState).trace Event.browserCreate = 1 ∧
    countEvent (initTimes 3 initState).trace Event.contextCreate = 1 ∧
    (initTimes 3 initState).trace = [Event.browserCreate, Event.contextCreate] :=
  C5_init_idempotent 3 (by decide)

/-! ### C6 -/

/-- One transcript-touching call on the service: `post` is
`add_message("user", text)` (the spec's `post_user_message`), `proc` is a
full `process_user_message` call under a given oracle. -/
inductive Op where
  | post (text : String)
  | proc (env : ProcEnv) (text : String)

/-- Run one call. -/
def runOp : Op → ChatState → ChatState
  | .post text, s => (add_message s "user" text none).2
  | .proc env text, s => (process_user_message env s text).2

/-- Run a sequence of calls in order. -/
def runOps : List Op → ChatState → ChatState
  | [], s => s
  | op :: rest, s => runOps rest (runOp op s)

/-- How many messages one call appends: a post appends one; a process call
appends two (user then assistant) unless session initialization raised, in
which case it appends only the assistant error reply. -/
def opAppends : Op → ChatState → Nat
  | .post _, _ => 1
  | .proc env _, s => if (initialize_browser env.init s).isOk then 2 else 1

/-- Total number of messages appended by a sequence of calls. -/
def appendedCount : List Op → ChatState → Nat
  | [], _ => 0
  | op :: rest, s => opAppends op s + appendedCount rest (runOp op s)

/-- Every single call only appends to the transcript, by exactly
`opAppends` messages. -/
theorem runOp_messages (op : Op) (s : ChatState) :
    ∃ new : List ChatMessage,
      (runOp op s).messages = s.messages ++ new ∧ new.length = opAppends op s := by
  cases op with
  | post text => exact ⟨[_], rfl, rfl⟩
  | proc env text =>
    obtain ⟨hm, _⟩ := initialize_browser_frame env.init s
    cases hinit : initialize_browser env.init s with
    | exn e s1 =>
      rw [hinit] at hm
      simp only [PyResult.state] at hm
      have heq : (runOp (Op.proc env text) s).messages
          = s.messages ++ [(process_user_message env s text).1] := by
        show (process_user_message env s text).2.messages = _
        unfold process_user_message
        rw [hinit]
        simp [add_message, hm]
      exact ⟨_, heq, by simp [opAppends, hinit, PyResult.isOk]⟩
    | ok v s1 =>
      rw [hinit] at hm
      simp only [PyResult.state] at hm
      have heq : (runOp (Op.proc env text) s).messages
          = s.messages ++ [(add_message s1 "user" text none).1,
                           (process_user_message env s text).1] := by
        show (process_user_message env s text).2.messages = _
        unfold process_user_message
        rw [hinit]
        cases env.run with
        | fails e => simp [add_message, hm]
        | ok h => simp [add_message, hm]
      exact ⟨_, heq, by simp [opAppends, hinit, PyResult.isOk]⟩

/-- C6: the transcript is append-only — after any sequence of
`post_user_message`/`process` calls, the history equals the old transcript
with the new messages appended after it in call order (so no prior entry is
removed or edited), and its length grew by exactly the number of messages
the calls appended. -/
theorem C6_transcript_append_only (ops : List Op) (s : ChatState) :
    ∃ new : List ChatMessage,
      get_chat_history (runOps ops s) = s.messages ++ new ∧
      new.length = appendedCount ops s := by
  induction ops generalizing s with
  | nil => exact ⟨[], by simp [runOps, get_chat_history], rfl⟩
  | cons op rest ih =>
    obtain ⟨n1, h1, l1⟩ := runOp_messages op s
    obtain ⟨n2, h2, l2⟩ := ih (runOp op s)
    refine ⟨n1 ++ n2, ?_, ?_⟩
    · show get_chat_history (runOps rest (runOp op s)) = _
      rw [h2, h1, List.append_assoc]
    · rw [List.length_append, l1, l2]
      rfl

/-! ### C8 -/

/-- When the session is live, a `process_user_message` call never provisions
anything: the only event it adds is its own agent run, bound to the current
context handle. -/
theorem process_live_trace (env : ProcEnv) (s : ChatState) (msg : String)
    (hb : s.browser = some ()) :
    (process_user_message env s msg).2.trace
      = s.trace ++ [Event.agentRun s.browser_context] := by
  unfold process_user_message
  rw [initialize_browser_live env.init s hb]
  cases env.run with
  | fails e => simp [add_message]
  | ok h => simp [add_message]

/-- C8: `clear_chat_history` empties the transcript and changes nothing
else — after a `process_user_message` call that left the session live,
clearing leaves both handles untouched, and a subsequent
`process_user_message` call does not re-provision the browser (its only new
event is its own agent run against the surviving context). -/
theorem C8_clear_preserves_session (env env2 : ProcEnv) (s : ChatState) (msg msg2 : String)
    (h : (process_user_message env s msg).2.browser = some ()) :
    get_chat_history (clear_chat_history (process_user_message env s msg).2) = [] ∧
    (clear_chat_history (process_user_message env s msg).2).browser
      = (process_user_message env s msg).2.browser ∧
    (clear_chat_history (process_user_message env s msg).2).browser_context
      = (process_user_message env s msg).2.browser_context ∧
    (process_user_message env2
        (clear_chat_history (process_user_message env s msg).2) msg2).2.trace
      = (clear_chat_history (process_user_message env s msg).2).trace
        ++ [Event.agentRun (process_user_message env s msg).2.browser_context] := by
  refine ⟨rfl, rfl, rfl, ?_⟩
  exact process_live_trace env2 (clear_chat_history (process_user_message env s msg).2) msg2 h

/-- C8 witness: a successful turn, a clear, then a second turn whose
initializer oracle would fail if it were consulted — it is not: the session
survives the clear and no provisioning event is added. -/
theorem C8_clear_preserves_session_witness :
    get_chat_history (clear_chat_history
        (process_user_message ⟨InitOutcome.ok, RunOutcome.ok ⟨some "r", [], [], []⟩⟩
          initState "hi").2) = [] ∧
    (clear_chat_history
        (process_user_message ⟨InitOutcome.ok, RunOutcome.ok ⟨some "r", [], [], []⟩⟩
          initState "hi").2).browser = some () ∧
    (clear_chat_history
        (process_user_message ⟨InitOutcome.ok, RunOutcome.ok ⟨some "r", [], [], []⟩⟩
          initState "hi").2).browser_context = some () ∧
    (process_user_message ⟨InitOutcome.browserFails "would fail", RunOutcome.fails "late"⟩
        (clear_chat_history
          (process_user_message ⟨InitOutcome.ok, RunOutcome.ok ⟨some "r", [], [], []⟩⟩
            initState "hi").2) "again").2.trace
      = [Event.browserCreate, Event.contextCreate, Event.agentRun (some ()),
         Event.agentRun (some ())] := by
  have h := C8_clear_preserves_session
    ⟨InitOutcome.ok, RunOutcome.ok ⟨some "r", [], [], []⟩⟩
    ⟨InitOutcome.browserFails "would fail", RunOutcome.fails "late"⟩
    initState "hi" "again" rfl
  exact ⟨h.1, h.2.1, h.2.2.1, h.2.2.2⟩
